import Mathlib

/-!
Shallow embedding of the authentication service (actix-web + sea-orm +
argon2 + jsonwebtoken) found in `src/`:

* `src/utils/jwt.rs`            — `encode_jwt`, `decode_jwt`, `Claims`
* `src/handlers/auth_handler.rs`— `login`, `register`
* `src/utils/auth_middleware.rs`— `AuthenticatedUser::from_request`
* `src/main.rs`                 — startup (`main`)

External-library behaviour (the `jsonwebtoken` HMAC, base64 token
serialization, and the `argon2` PHC hash format) is modelled by
collision-free constructors: a signed token carries its header, claims and
a MAC tag that records the key and the signed content, and every string
that does not parse into the header/claims/signature structure is the
`malformed` constructor.  Unix timestamps are `Nat` (the code casts them
to `usize`/`u64`).  A Rust `panic!`/`expect` is the `panic` outcome,
distinct from a returned `Err`.
-/

deriving instance DecidableEq for Except

namespace AuthSpec

/-- Outcome of running a piece of Rust code: a returned `Ok`, a returned
`Err`, or a `panic` (from `expect`/`unwrap`). -/
inductive Outcome (ε α : Type) where
  | ok (a : α)
  | err (e : ε)
  | panic (msg : String)
deriving DecidableEq, Repr

/-- The process environment (`std::env::var`): a partial map from
variable names to values. -/
def EnvMap : Type := String → Option String

/-- JWT signing algorithm; the code only ever uses HS256
(`Algorithm::HS256` in `src/utils/jwt.rs`). -/
inductive Alg where
  | HS256
  | other (name : String)
deriving DecidableEq, Repr

/-- JWT header (`Header::new(Algorithm::HS256)`). -/
structure JwtHeader where
  alg : Alg
deriving DecidableEq, Repr

/-- The `Claims` struct of `src/utils/jwt.rs`: subject, issued-at and
expiry as `usize` Unix timestamps. -/
structure Claims where
  sub : String
  iat : Nat
  exp : Nat
deriving DecidableEq, Repr

/-- Model of the HMAC-SHA256 tag over the serialized header and claims.
HMAC is modelled as collision-free: the tag records the key and the
signed content, so two tags are equal exactly when key, header and claims
all agree. -/
structure HmacTag where
  key : String
  header : JwtHeader
  claims : Claims
deriving DecidableEq, Repr

/-- Computing the MAC (the signing step inside `jsonwebtoken::encode` and
the reference tag inside `jsonwebtoken::decode`). -/
def hmacSha256 (key : String) (header : JwtHeader) (claims : Claims) : HmacTag :=
  ⟨key, header, claims⟩

/-- A token string, viewed through the `jsonwebtoken` parser: either it
parses into the `header.claims.signature` structure (`signed`, where the
signature field may be any tag, matching or not), or it is any other
string (`malformed`), covering truncated and garbage inputs. -/
inductive Token where
  | signed (header : JwtHeader) (claims : Claims) (sig : HmacTag)
  | malformed (raw : String)
deriving DecidableEq, Repr

/-- The `jsonwebtoken::errors::ErrorKind` cases reachable in
`decode_jwt`. -/
inductive JwtError where
  | invalidToken
  | invalidAlgorithm
  | invalidSignature
  | expiredSignature
deriving DecidableEq, Repr

/-- `encode_jwt` from `src/utils/jwt.rs`: reads `JWT_SECRET` from the
environment (panicking with the `expect` message if absent), builds
claims with `iat = now` and `exp = now + 24h`, and signs them with
HS256. -/
def encode_jwt (env : EnvMap) (username : String) (now : Nat) :
    Outcome JwtError Token :=
  match env "JWT_SECRET" with
  | none => .panic "JWT_SECRET must be set"
  | some secret =>
    let claims : Claims := ⟨username, now, now + 24 * 60 * 60⟩
    let header : JwtHeader := ⟨Alg.HS256⟩
    .ok (.signed header claims (hmacSha256 secret header claims))

/-- `decode_jwt` from `src/utils/jwt.rs`: reads `JWT_SECRET` (panicking
if absent), then runs `jsonwebtoken::decode` with
`Validation::new(HS256)` and `leeway = 60`: a malformed string is
`InvalidToken`; a wrong algorithm is `InvalidAlgorithm`; a tag that does
not equal the MAC of the content under this secret is
`InvalidSignature`; then the `exp` claim is checked against
`now - leeway` (`u64` arithmetic, here `Nat` truncated subtraction). -/
def decode_jwt (env : EnvMap) (now : Nat) (tok : Token) :
    Outcome JwtError Claims :=
  match env "JWT_SECRET" with
  | none => .panic "JWT_SECRET must be set"
  | some secret =>
    match tok with
    | .malformed _ => .err .invalidToken
    | .signed header claims sig =>
      if header.alg = Alg.HS256 then
        if sig = hmacSha256 secret header claims then
          if claims.exp < now - 60 then .err .expiredSignature
          else .ok claims
        else .err .invalidSignature
      else .err .invalidAlgorithm

/-- Rust `str::parse::<u16>()` on a decimal string: every character must
be a digit, the string must be nonempty, and the value must fit in a
`u16`. -/
def parseU16 (s : String) : Option Nat :=
  let cs := s.toList
  if !cs.isEmpty && cs.all (fun c => c.isDigit) then
    let n := cs.foldl (fun n c => n * 10 + (c.toNat - 48)) 0
    if n < 65536 then some n else none
  else none

/-- Startup (`main` in `src/main.rs`), restricted to its environment
reads: `DATABASE_URL` is required (`expect`), `HOST` defaults to
`127.0.0.1`, `PORT` defaults to `8080` and must parse as a `u16`
(`expect`).  `JWT_SECRET` is never read here.  The database connection
and socket bind are external effects, modelled as succeeding. -/
def startup (env : EnvMap) : Outcome String Unit :=
  match env "DATABASE_URL" with
  | none => .panic "DATABASE_URL must be set in .env"
  | some _ =>
    let portStr := (env "PORT").getD "8080"
    match parseU16 portStr with
    | none => .panic "PORT must be a valid u16"
    | some _ => .ok ()

/-- Model of the argon2 digest computed from a password and a salt.  The
hash function is modelled as collision-free: the digest records its
inputs, so recomputing the digest from a candidate password and the
stored salt matches exactly when the password is the original one. -/
structure ArgonDigest where
  password : String
  salt : String
deriving DecidableEq, Repr

/-- A stored password-hash string, viewed through the PHC-format parser
(`PasswordHash::new`): either it parses into parameters, a salt and a
digest (`wellFormed`), or it is any other string (`corrupt`). -/
inductive PhcString where
  | wellFormed (salt : String) (digest : ArgonDigest)
  | corrupt (raw : String)
deriving DecidableEq, Repr

/-- The hashing closure of `register` in
`src/handlers/auth_handler.rs`: `Argon2::default().hash_password` with a
generated salt, yielding the PHC string stored in the database.  The
salt is a parameter here (the code draws it from `OsRng`). -/
def hash_password (password salt : String) : PhcString :=
  .wellFormed salt (ArgonDigest.mk password salt)

/-- Substring membership on character lists, modelling Rust
`str::contains(&str)`. -/
def hasSubstr (pat : List Char) : List Char → Bool
  | [] => pat.isEmpty
  | c :: rest => pat.isPrefixOf (c :: rest) || hasSubstr pat rest

/-- Rust `str::contains(&str)` on strings. -/
def strContains (s pat : String) : Bool :=
  hasSubstr pat.toList s.toList

/-- The verification closure passed to `web::block` in `login`
(`src/handlers/auth_handler.rs`): parse the stored hash with
`PasswordHash::new`, returning
`Err("Password hash parsing error: {e}")` on failure, then
`Argon2::default().verify_password`, returning `Err("Invalid password")`
when the recomputed digest does not match. -/
def verify_block (passwordInput : String) (stored : PhcString) :
    Except String Unit :=
  match stored with
  | .corrupt _ => .error "Password hash parsing error: invalid encoding"
  | .wellFormed salt digest =>
    if ArgonDigest.mk passwordInput salt = digest then .ok ()
    else .error "Invalid password"

/-- A row of the `users` table as used by the handlers
(`crate::models::auth_model::Model`): username, email, stored password
hash, and the active flag. -/
structure UserRecord where
  username : String
  email : String
  password : PhcString
  active : Bool
deriving DecidableEq, Repr

/-- The database query of `login`:
`Entity::find().filter(Username.eq(u)).filter(Active.eq(true)).one(db)`
over a functional store — the first record whose username matches and
whose active flag is true. -/
def lookupUser (store : List UserRecord) (u : String) : Option UserRecord :=
  store.find? (fun r => r.username == u && r.active == true)

/-- The JSON body the `login` handler returns: every body it builds has a
`code` and a `message` field, and never a token field (`token` records
any token delivered to the caller; the handler delivers none). -/
structure LoginResponse where
  status : Nat
  code : Nat
  message : String
  token : Option Token
deriving DecidableEq, Repr

/-- Result of a `login` call: the HTTP response plus instrumentation
recording whether the blocking password-verification task was ever
dispatched. -/
structure LoginResult where
  response : LoginResponse
  verifyAttempted : Bool
deriving DecidableEq, Repr

/-- The `login` handler of `src/handlers/auth_handler.rs`, after input
validation: look the user up (username match and active flag); a missing
row is `401 invalid credentials`; otherwise run the verification
closure; success is `200 Login successful` (no token in the body —
`encode_jwt` is never called); an error whose message contains
`parsing error` is `500 Internal server error`; any other error is
`401 invalid credentials`. -/
def login (store : List UserRecord) (username password : String) :
    LoginResult :=
  match lookupUser store username with
  | none =>
    ⟨⟨401, 401, "invalid credentials", none⟩, false⟩
  | some user =>
    match verify_block password user.password with
    | .ok () => ⟨⟨200, 200, "Login successful", none⟩, true⟩
    | .error errMsg =>
      if strContains errMsg "parsing error" then
        ⟨⟨500, 500, "Internal server error", none⟩, true⟩
      else
        ⟨⟨401, 401, "invalid credentials", none⟩, true⟩

/-- The extractor output type of `src/utils/auth_middleware.rs`. -/
structure AuthenticatedUser where
  username : String
deriving DecidableEq, Repr

/-- An `Authorization` header value: `HeaderValue::to_str` succeeds on
ASCII values and fails otherwise. -/
inductive HeaderVal where
  | ascii (s : String)
  | nonAscii
deriving DecidableEq, Repr

/-- Rust `str::starts_with(&str)`. -/
def strStartsWith (s pre : String) : Bool :=
  pre.toList.isPrefixOf s.toList

/-- Rust byte slicing `&s[n..]`; the code drops the 7 bytes of
`"Bearer "`, which are 7 ASCII characters. -/
def strDrop (s : String) (n : Nat) : String :=
  ⟨s.toList.drop n⟩

/-- `AuthenticatedUser::from_request` from
`src/utils/auth_middleware.rs`: missing header, non-ASCII header and a
value without the `Bearer ` scheme are distinct unauthorized errors;
otherwise the text after `Bearer ` is decoded with `decode_jwt`
(`parseTok` maps that substring to its parsed token structure), and any
decode error becomes `Invalid or expired token`. -/
def from_request (env : EnvMap) (now : Nat) (parseTok : String → Token)
    (authHeader : Option HeaderVal) : Outcome String AuthenticatedUser :=
  match authHeader with
  | none => .err "Authorization header missing"
  | some .nonAscii => .err "Invalid Authorization header"
  | some (.ascii s) =>
    if !strStartsWith s "Bearer " then .err "Invalid Authorization scheme"
    else
      match decode_jwt env now (parseTok (strDrop s 7)) with
      | .ok claims => .ok ⟨claims.sub⟩
      | .err _ => .err "Invalid or expired token"
      | .panic m => .panic m

/-- Concrete environment: secret `secretA` and a database URL configured. -/
def envSecretA : EnvMap := fun k =>
  if k = "JWT_SECRET" then some "secretA"
  else if k = "DATABASE_URL" then some "postgres" else none

/-- Concrete environment: secret `secretB` and a database URL configured. -/
def envSecretB : EnvMap := fun k =>
  if k = "JWT_SECRET" then some "secretB"
  else if k = "DATABASE_URL" then some "postgres" else none

/-- Concrete environment: database URL configured, no `JWT_SECRET`. -/
def envNoJwtSecret : EnvMap := fun k =>
  if k = "DATABASE_URL" then some "postgres" else none

/-- The token `encode_jwt` issues for subject `alice` at time `0` under
secret `secretA`. -/
def tokAlice : Token :=
  .signed ⟨Alg.HS256⟩ ⟨"alice", 0, 86400⟩
    (hmacSha256 "secretA" ⟨Alg.HS256⟩ ⟨"alice", 0, 86400⟩)

/-- C4: for every password and salt, verifying the password against the
hash just produced from it succeeds. -/
theorem verify_of_hash_password (p salt : String) :
    verify_block p (hash_password p salt) = .ok () := by
  simp [verify_block, hash_password]

/-- C2 fails on the code: with `DATABASE_URL` set but no `JWT_SECRET`,
startup succeeds, yet every issue or validate call made afterwards
aborts with a panic because the secret is absent — a per-call failure,
not a startup `ConfigError`. -/
theorem secret_missing_per_request_counterexample :
    startup envNoJwtSecret = .ok () ∧
    encode_jwt envNoJwtSecret "alice" 0 = .panic "JWT_SECRET must be set" ∧
    decode_jwt envNoJwtSecret 0 (.malformed "x") =
      .panic "JWT_SECRET must be set" := by
  refine ⟨?_, ?_, ?_⟩ <;> decide

/-- C2 (amended): the signing secret is read from the environment on
every issue and every validate call; when `JWT_SECRET` is absent each
such call panics with the `expect` message, and startup never consults
`JWT_SECRET` (it is determined by `DATABASE_URL` and `PORT` alone). -/
theorem secret_read_per_call (env : EnvMap) (h : env "JWT_SECRET" = none) :
    (∀ u now, encode_jwt env u now = .panic "JWT_SECRET must be set") ∧
    (∀ tok now, decode_jwt env now tok = .panic "JWT_SECRET must be set") ∧
    (∀ env2 : EnvMap, env2 "DATABASE_URL" = env "DATABASE_URL" →
      env2 "PORT" = env "PORT" → startup env2 = startup env) := by
  refine ⟨?_, ?_, ?_⟩
  · intro u now
    simp [encode_jwt, h]
  · intro tok now
    simp [decode_jwt, h]
  · intro env2 h1 h2
    simp [startup, h1, h2]

/-- Witness for `secret_read_per_call` at a concrete environment. -/
theorem secret_read_per_call_witness :
    envNoJwtSecret "JWT_SECRET" = none ∧
    encode_jwt envNoJwtSecret "alice" 5 = .panic "JWT_SECRET must be set" :=
  ⟨rfl, (secret_read_per_call envNoJwtSecret rfl).1 "alice" 5⟩

/-- C3: for every subject, with the secret configured, validating a
token immediately after issuing it (same clock value) succeeds and
returns claims whose subject is that subject. -/
theorem validate_after_issue (env : EnvMap) (secret s : String) (now : Nat)
    (h : env "JWT_SECRET" = some secret) :
    ∃ tok, encode_jwt env s now = .ok tok ∧
      ∃ c, decode_jwt env now tok = .ok c ∧ c.sub = s := by
  refine ⟨Token.signed ⟨Alg.HS256⟩ ⟨s, now, now + 24 * 60 * 60⟩
      (hmacSha256 secret ⟨Alg.HS256⟩ ⟨s, now, now + 24 * 60 * 60⟩), ?_,
    ⟨s, now, now + 24 * 60 * 60⟩, ?_, rfl⟩
  · simp [encode_jwt, h]
  · simp only [decode_jwt, h, if_true]
    rw [if_neg (by omega)]

/-- Witness for `validate_after_issue` at a concrete environment,
subject and time. -/
theorem validate_after_issue_witness :
    envSecretA "JWT_SECRET" = some "secretA" ∧
    ∃ tok, encode_jwt envSecretA "alice" 0 = .ok tok ∧
      ∃ c, decode_jwt envSecretA 0 tok = .ok c ∧ c.sub = "alice" :=
  ⟨rfl, validate_after_issue envSecretA "secretA" "alice" 0 rfl⟩

/-- C5: every issued token satisfies `exp = iat + 24h`, and with the
same secret configured it fails validation with `ExpiredSignature`
exactly when the validation time exceeds `exp` plus the 60-second
leeway, and validates successfully exactly otherwise. -/
theorem expiry_boundary (env : EnvMap) (secret s : String) (now now2 : Nat)
    (tok : Token) (h : env "JWT_SECRET" = some secret)
    (he : encode_jwt env s now = .ok tok) :
    (∃ hd c sg, tok = Token.signed hd c sg ∧ c.iat = now ∧
      c.exp = c.iat + 24 * 60 * 60) ∧
    (decode_jwt env now2 tok = .err .expiredSignature ↔
      now + 24 * 60 * 60 + 60 < now2) ∧
    ((∃ c, decode_jwt env now2 tok = .ok c) ↔
      now2 ≤ now + 24 * 60 * 60 + 60) := by
  simp only [encode_jwt, h] at he
  injection he with he2
  subst he2
  refine ⟨⟨_, _, _, rfl, rfl, rfl⟩, ?_, ?_⟩
  · simp only [decode_jwt, h, if_true]
    by_cases hc : now + 24 * 60 * 60 < now2 - 60
    · rw [if_pos hc]
      simp only [true_iff]
      omega
    · rw [if_neg hc]
      constructor
      · intro hx
        exact absurd hx (by simp)
      · intro hx
        omega
  · simp only [decode_jwt, h, if_true]
    by_cases hc : now + 24 * 60 * 60 < now2 - 60
    · rw [if_pos hc]
      constructor
      · rintro ⟨c, hcx⟩
        exact absurd hcx (by simp)
      · intro hx
        omega
    · rw [if_neg hc]
      constructor
      · intro _
        omega
      · intro _
        exact ⟨_, rfl⟩

/-- Witness for `expiry_boundary`: the concrete token issued at time 0
fails with the expiry error at `24h + 61s` and still validates at
`24h + 59s`. -/
theorem expiry_boundary_witness :
    decode_jwt envSecretA 86461 tokAlice = .err .expiredSignature ∧
    ∃ c, decode_jwt envSecretA 86459 tokAlice = .ok c :=
  ⟨(expiry_boundary envSecretA "secretA" "alice" 0 86461 tokAlice rfl
      rfl).2.1.mpr (by norm_num),
   (expiry_boundary envSecretA "secretA" "alice" 0 86459 tokAlice rfl
      rfl).2.2.mpr (by norm_num)⟩

/-- C9: a token issued under one secret fails validation under any
distinct secret with `InvalidSignature`, at every validation time. -/
theorem wrong_secret_invalid_signature (env1 env2 : EnvMap) (a b s : String)
    (now now2 : Nat) (tok : Token)
    (ha : env1 "JWT_SECRET" = some a) (hb : env2 "JWT_SECRET" = some b)
    (hne : a ≠ b) (he : encode_jwt env1 s now = .ok tok) :
    decode_jwt env2 now2 tok = .err .invalidSignature := by
  simp only [encode_jwt, ha] at he
  injection he with he2
  subst he2
  simp only [decode_jwt, hb, if_true]
  rw [if_neg]
  intro hcontra
  exact hne (congrArg HmacTag.key hcontra)

/-- Witness for `wrong_secret_invalid_signature`: the token issued for
`alice` under `secretA` is rejected under `secretB`. -/
theorem wrong_secret_invalid_signature_witness :
    decode_jwt envSecretB 0 tokAlice = .err .invalidSignature :=
  wrong_secret_invalid_signature envSecretA envSecretB "secretA" "secretB"
    "alice" 0 0 tokAlice rfl rfl (by decide) rfl

/-- C8: with a secret configured, validating any malformed or truncated
token string returns the `InvalidToken` error (never a panic, never a
success), and the middleware maps that failure to its
`Invalid or expired token` unauthorized error. -/
theorem malformed_token_total (env : EnvMap) (secret : String)
    (h : env "JWT_SECRET" = some secret) (now : Nat) (raw : String) :
    decode_jwt env now (.malformed raw) = .err .invalidToken ∧
    (∀ (parseTok : String → Token) (s : String),
      strStartsWith s "Bearer " = true →
      parseTok (strDrop s 7) = .malformed raw →
      from_request env now parseTok (some (.ascii s)) =
        .err "Invalid or expired token") := by
  constructor
  · simp [decode_jwt, h]
  · intro parseTok s hs hp
    simp [from_request, hs, hp, decode_jwt, h]

/-- Witness for `malformed_token_total` on a concrete garbage token. -/
theorem malformed_token_total_witness :
    decode_jwt envSecretA 0 (.malformed "garbage") = .err .invalidToken ∧
    from_request envSecretA 0 (fun _ => .malformed "garbage")
      (some (.ascii "Bearer garbage")) = .err "Invalid or expired token" :=
  ⟨(malformed_token_total envSecretA "secretA" rfl 0 "garbage").1,
   (malformed_token_total envSecretA "secretA" rfl 0 "garbage").2
     (fun _ => .malformed "garbage") "Bearer garbage" (by decide) rfl⟩

/-- C1 fails on the code: with an active user `alice` registered under
the argon2 hash of `pw1`, a login with the correct credentials returns
`200 Login successful` with no token in the response, and the handler
never invokes `encode_jwt` — no token is issued or delivered. -/
theorem login_success_delivers_no_token :
    login [⟨"alice", "alice@example.com", hash_password "pw1" "saltA", true⟩]
        "alice" "pw1" =
      ⟨⟨200, 200, "Login successful", none⟩, true⟩ := by
  decide

/-- C6: a login attempt naming a username with no active record and one
naming an existing active user whose password fails verification
produce identical responses, both `401` with body
`invalid credentials`. -/
theorem unauthorized_indistinguishable (store : List UserRecord)
    (u1 p1 u2 p2 : String) (rec : UserRecord)
    (h1 : lookupUser store u1 = none)
    (h2 : lookupUser store u2 = some rec)
    (hv : verify_block p2 rec.password = .error "Invalid password") :
    (login store u1 p1).response = (login store u2 p2).response ∧
    (login store u1 p1).response = ⟨401, 401, "invalid credentials", none⟩ := by
  have hc : strContains "Invalid password" "parsing error" = false := by
    decide
  simp [login, h1, h2, hv, hc]

/-- Witness for `unauthorized_indistinguishable`: unknown user `bob`
versus registered user `alice` with a wrong password. -/
theorem unauthorized_indistinguishable_witness :
    (login [⟨"alice", "alice@example.com", hash_password "pw1" "saltA", true⟩]
        "bob" "anything").response =
    (login [⟨"alice", "alice@example.com", hash_password "pw1" "saltA", true⟩]
        "alice" "wrongpw").response :=
  (unauthorized_indistinguishable
    [⟨"alice", "alice@example.com", hash_password "pw1" "saltA", true⟩]
    "bob" "anything" "alice" "wrongpw"
    ⟨"alice", "alice@example.com", hash_password "pw1" "saltA", true⟩
    (by decide) (by decide) (by decide)).1

/-- C7: when the stored hash string does not parse, the verification
closure fails with the parse-error message — distinct from the
wrong-password error — and login answers `500 Internal server error`,
never the `401 invalid credentials` outcome. -/
theorem corrupt_hash_internal_fault (store : List UserRecord)
    (u p raw : String) (rec : UserRecord)
    (h : lookupUser store u = some rec)
    (hcor : rec.password = .corrupt raw) :
    verify_block p rec.password =
      .error "Password hash parsing error: invalid encoding" ∧
    verify_block p rec.password ≠ .error "Invalid password" ∧
    (login store u p).response = ⟨500, 500, "Internal server error", none⟩ ∧
    (login store u p).response ≠ ⟨401, 401, "invalid credentials", none⟩ := by
  have hv : verify_block p rec.password =
      .error "Password hash parsing error: invalid encoding" := by
    rw [hcor]
    rfl
  have hs : strContains "Password hash parsing error: invalid encoding"
      "parsing error" = true := by
    decide
  have hl : (login store u p).response =
      ⟨500, 500, "Internal server error", none⟩ := by
    simp [login, h, hv, hs]
  refine ⟨hv, ?_, hl, ?_⟩
  · rw [hv]
    decide
  · rw [hl]
    decide

/-- Witness for `corrupt_hash_internal_fault`: user `carol` stored with
an unparseable hash string. -/
theorem corrupt_hash_internal_fault_witness :
    (login [⟨"carol", "carol@example.com", .corrupt "not-a-phc-hash", true⟩]
        "carol" "pw").response = ⟨500, 500, "Internal server error", none⟩ :=
  (corrupt_hash_internal_fault
    [⟨"carol", "carol@example.com", .corrupt "not-a-phc-hash", true⟩]
    "carol" "pw" "not-a-phc-hash"
    ⟨"carol", "carol@example.com", .corrupt "not-a-phc-hash", true⟩
    (by decide) rfl).2.2.1

/-- C10: when some record for the username exists but every record for
it is inactive, login behaves exactly as for a nonexistent user — the
same full result as on the empty store — and the password-verification
task is never dispatched. -/
theorem inactive_user_unauthorized (store : List UserRecord)
    (u p : String) (rec : UserRecord)
    (hmem : rec ∈ store) (hname : rec.username = u)
    (hinact : rec.active = false)
    (hall : ∀ r ∈ store, r.username = u → r.active = false) :
    login store u p = login [] u p ∧
    (login store u p).verifyAttempted = false := by
  have hl : lookupUser store u = none := by
    unfold lookupUser
    rw [List.find?_eq_none]
    intro r hr hcontra
    simp only [Bool.and_eq_true, beq_iff_eq] at hcontra
    obtain ⟨hu, hact⟩ := hcontra
    rw [hall r hr hu] at hact
    exact absurd hact (by decide)
  have hnil : login [] u p =
      ⟨⟨401, 401, "invalid credentials", none⟩, false⟩ := rfl
  constructor
  · rw [hnil]
    simp only [login, hl]
  · simp [login, hl]

/-- Witness for `inactive_user_unauthorized`: a store holding only an
inactive `bob`. -/
theorem inactive_user_unauthorized_witness :
    login [⟨"bob", "bob@example.com", hash_password "pw" "saltB", false⟩]
        "bob" "pw" =
      login [] "bob" "pw" :=
  (inactive_user_unauthorized
    [⟨"bob", "bob@example.com", hash_password "pw" "saltB", false⟩]
    "bob" "pw"
    ⟨"bob", "bob@example.com", hash_password "pw" "saltB", false⟩
    (by decide) rfl rfl (by decide)).1

end AuthSpec
